import Mathlib

/-!
Shallow embedding of the engagement-state synchronization layer of the
media application (src/src/pages/Media.tsx): the fetch-and-enrich cycle
of fetchMediaContent, the fetch guard, and the optimistic mutation
handlers handleLike and handleFollow.

Conventions of the embedding:
- JS strings are Lean String; JS numeric counters are Nat (all counter
  arithmetic in the source stays non-negative via Math.max(0, _), which
  Nat subtraction models exactly). Display-only numeric fields (rating,
  price) never enter any arithmetic relevant here and are kept as Int.
- Optional TS fields (likes_count?, is_liked?, is_following?) are Option.
- The JS Map built in fetchMediaContent is an association list with the
  exact set/get behaviour of Map.prototype.set/get.
- JS truthiness fallback x || y || 0 on optional numbers is orElseNat.
- Backend reads are pure inputs: a read that can throw is Except, a read
  whose error is swallowed (null data) is Option.
- Each async handler is a function from the pre-state (plus the backend
  outcome of its awaited calls) to the post-state, which is faithful to
  the single-threaded event-loop execution of one invocation.
-/

namespace MediaSync

/-- The MediaItem record of src/src/pages/Media.tsx (interface MediaItem). -/
structure MediaItem where
  id : String
  title : String
  creator_name : String
  thumbnail_url : String
  duration : Option String
  read_time : Option String
  category : String
  type : String
  content_type : String
  description : String
  price : Option Int
  rating : Int
  is_premium : Bool
  views_count : Nat
  plays_count : Nat
  sales_count : Nat
  likes_count : Option Nat
  is_liked : Option Bool
  is_following : Option Bool
  deriving DecidableEq

/-- A row of the media_likes select media_id query. -/
structure LikeRow where
  media_id : String
  deriving DecidableEq

/-- A row of the creator_follows select creator_name query. -/
structure FollowRow where
  creator_name : String
  deriving DecidableEq

/-- The component state touched by the core: mediaContent, loading, error,
and the fetchInProgressRef guard. -/
structure StoreState where
  items : List MediaItem
  loading : Bool
  error : Option String
  fetchInProgress : Bool
  deriving DecidableEq

/-- Outcome of the backend reads one fetch cycle performs. mediaData models
the content read (a thrown error aborts the cycle); the three edge reads
swallow their errors, yielding null data, hence Option. -/
structure Backend where
  mediaData : Except String (List MediaItem)
  allLikes : Option (List LikeRow)
  userLikes : Option (List LikeRow)
  userFollows : Option (List FollowRow)

/-- Counts of backend read queries one call issues: content-list read
cycles, full like-edge reads, viewer-scoped edge reads. -/
structure FetchLog where
  contentReads : Nat
  allLikesReads : Nat
  viewerReads : Nat
  deriving DecidableEq

/-- JS truthiness fallback for an optional number: a present non-zero
value wins, otherwise the default (x || y with x a number or undefined). -/
def orElseNat : Option Nat → Nat → Nat
  | some n, b => if n = 0 then b else n
  | none, b => b

/-- Map.prototype.get on the association-list model of a JS Map. -/
def mapGet (m : List (String × Nat)) (k : String) : Option Nat :=
  (m.find? (fun p => p.1 = k)).map (fun p => p.2)

/-- Map.prototype.set: overwrite the entry if the key is present,
otherwise append it. -/
def mapSet (m : List (String × Nat)) (k : String) (v : Nat) : List (String × Nat) :=
  if m.any (fun p => p.1 = k) then
    m.map (fun p => if p.1 = k then (k, v) else p)
  else
    m ++ [(k, v)]

/-- The likesCountMap construction of fetchMediaContent: forEach over the
like rows, incrementing the per-media_id count (get(...) || 0, then set). -/
def buildLikesCountMap (likes : List LikeRow) : List (String × Nat) :=
  likes.foldl
    (fun m like => mapSet m like.media_id ((mapGet m like.media_id).getD 0 + 1)) []

/-- The enrichment map of fetchMediaContent lines 137-151: build the
likes-count map and the two viewer sets, then map each content item to
its enriched form. -/
def enrichItems (mediaData : List MediaItem) (allLikes : List LikeRow)
    (userLikes : List LikeRow) (userFollows : List FollowRow) : List MediaItem :=
  let likesCountMap := buildLikesCountMap allLikes
  let userLikesSet := userLikes.map (fun l => l.media_id)
  let userFollowsSet := userFollows.map (fun f => f.creator_name)
  mediaData.map (fun item =>
    { item with
      likes_count := some (orElseNat (mapGet likesCountMap item.id)
        (orElseNat item.likes_count 0))
      is_liked := some (userLikesSet.contains item.id)
      is_following := some (userFollowsSet.contains item.creator_name) })

/-- The error banner text set when the content read throws. -/
def fetchErrMsg : String := "Failed to load media content. Please try again."

/-- The error text set when a like toggle durable write fails. -/
def likeErrMsg : String := "Failed to update like. Please try again."

/-- The error text set when a follow toggle durable write fails. -/
def followErrMsg : String := "Failed to update follow status. Please try again."

/-- The entry of fetchMediaContent once past the guard check: set the
in-flight marker, loading, and clear the error banner. -/
def fetchEnter (st : StoreState) : StoreState :=
  { st with fetchInProgress := true, loading := true, error := none }

/-- The body of fetchMediaContent after entry, through the finally block:
content read, optional edge reads, enrichment, state replacement; the
catch clears the items and sets the banner; finally releases the guard
and loading. Returns the new state and the reads issued. -/
def fetchRun (st : StoreState) (user : Option String) (b : Backend) :
    StoreState × FetchLog :=
  match b.mediaData with
  | .error _ =>
      ({ st with
          items := []
          error := some fetchErrMsg
          loading := false
          fetchInProgress := false }, ⟨1, 0, 0⟩)
  | .ok mediaData =>
      if mediaData.isEmpty then
        ({ st with
            items := []
            loading := false
            fetchInProgress := false }, ⟨1, 0, 0⟩)
      else
        let allLikes := b.allLikes.getD []
        let userLikes := if user.isSome then b.userLikes.getD [] else []
        let userFollows := if user.isSome then b.userFollows.getD [] else []
        ({ st with
            items := enrichItems mediaData allLikes userLikes userFollows
            loading := false
            fetchInProgress := false }, ⟨1, 1, if user.isSome then 2 else 0⟩)

/-- fetchMediaContent of src/src/pages/Media.tsx lines 87-165: the guard
check returns immediately when a fetch is in flight (no reads issued),
otherwise enter and run the cycle. -/
def fetchMediaContent (st : StoreState) (user : Option String) (b : Backend) :
    StoreState × FetchLog :=
  if st.fetchInProgress then (st, ⟨0, 0, 0⟩)
  else fetchRun (fetchEnter st) user b

/-- The optimistic like patch of handleLike lines 181-191: invert is_liked
and adjust likes_count for every item whose id matches. Math.max(0, x - 1)
is Nat subtraction. -/
def applyLikePatch (items : List MediaItem) (mediaId : String)
    (wasLiked : Bool) : List MediaItem :=
  items.map (fun m =>
    if m.id = mediaId then
      { m with
        is_liked := some (!wasLiked)
        likes_count := some (if wasLiked then m.likes_count.getD 0 - 1
          else m.likes_count.getD 0 + 1) }
    else m)

/-- Result of one handleLike invocation: the post-state and the number of
durable like-edge writes issued. -/
structure LikeResult where
  store : StoreState
  writes : Nat
  deriving DecidableEq

/-- handleLike of src/src/pages/Media.tsx lines 167-213. user is the
signed-in viewer (none redirects to sign-in and leaves the store alone);
writeOk is the outcome of the awaited insert or delete; on failure the
snapshot previousContent is restored and the banner set. -/
def handleLike (st : StoreState) (user : Option String) (mediaId : String)
    (writeOk : Bool) : LikeResult :=
  match user with
  | none => ⟨st, 0⟩
  | some _ =>
    match st.items.find? (fun m => m.id = mediaId) with
    | none => ⟨st, 0⟩
    | some item =>
      let wasLiked := item.is_liked.getD false
      let patched := { st with items := applyLikePatch st.items mediaId wasLiked }
      if writeOk then ⟨patched, 1⟩
      else ⟨{ patched with items := st.items, error := some likeErrMsg }, 1⟩

/-- The optimistic follow patch of handleFollow lines 229-235: invert
is_following on every item whose creator_name matches. -/
def applyFollowPatch (items : List MediaItem) (creatorName : String)
    (wasFollowing : Bool) : List MediaItem :=
  items.map (fun m =>
    if m.creator_name = creatorName then { m with is_following := some (!wasFollowing) }
    else m)

/-- Result of one handleFollow invocation: the post-state, the backend set
of creator names the viewer follows after the durable write, and the
number of durable writes issued. -/
structure FollowResult where
  store : StoreState
  follows : List String
  writes : Nat
  deriving DecidableEq

/-- handleFollow of src/src/pages/Media.tsx lines 215-257. follows is the
backend creator_follows rows of this viewer, as the followed names; a
successful delete removes the name, a successful insert adds it, a failed
write leaves the backend unchanged and rolls the store back to the
snapshot. -/
def handleFollow (st : StoreState) (follows : List String) (user : Option String)
    (creatorName : String) (writeOk : Bool) : FollowResult :=
  match user with
  | none => ⟨st, follows, 0⟩
  | some _ =>
    match st.items.find? (fun m => m.creator_name = creatorName) with
    | none => ⟨st, follows, 0⟩
    | some item =>
      let wasFollowing := item.is_following.getD false
      let patched := { st with items := applyFollowPatch st.items creatorName wasFollowing }
      if writeOk then
        ⟨patched,
         if wasFollowing then follows.filter (fun n => n ≠ creatorName)
         else creatorName :: follows, 1⟩
      else
        ⟨{ patched with items := st.items, error := some followErrMsg }, follows, 1⟩

/-- Concrete item builder for witnesses and counterexamples: the display
fields are fixed, the engagement fields are parameters. -/
def itemData (id creator : String) (lc : Option Nat) (liked following : Option Bool) :
    MediaItem :=
  ⟨id, "t", creator, "u", none, none, "all", "stream", "video", "d",
   none, 0, false, 0, 0, 0, lc, liked, following⟩

theorem orElseNat_zero (o : Option Nat) : orElseNat o 0 = o.getD 0 := by
  cases o with
  | none => rfl
  | some n =>
    by_cases h : n = 0 <;> simp [orElseNat, h]

theorem find?_key_comp (m : List (String × Nat)) (k k' : String) (v : Nat) :
    List.find? (fun p : String × Nat => decide (p.1 = k'))
        (m.map (fun p => if p.1 = k then (k, v) else p)) =
      Option.map (fun p => if p.1 = k then (k, v) else p)
        (List.find? (fun p : String × Nat => decide (p.1 = k')) m) := by
  rw [List.find?_map]
  have hq : ((fun p : String × Nat => decide (p.1 = k')) ∘
      fun p => if p.1 = k then (k, v) else p) =
      (fun p : String × Nat => decide (p.1 = k')) := by
    funext p
    by_cases hp : p.1 = k <;> simp [Function.comp, hp]
  rw [hq]

theorem mapGet_mapSet_self (m : List (String × Nat)) (k : String) (v : Nat) :
    mapGet (mapSet m k v) k = some v := by
  unfold mapSet
  split
  · rename_i h
    unfold mapGet
    rw [find?_key_comp]
    obtain ⟨p, hpm, hpk⟩ := List.any_eq_true.mp h
    have hs : (List.find? (fun p : String × Nat => decide (p.1 = k)) m).isSome :=
      List.find?_isSome.mpr ⟨p, hpm, hpk⟩
    obtain ⟨p', hp'⟩ := Option.isSome_iff_exists.mp hs
    rw [hp']
    have hk' : p'.1 = k := by simpa using List.find?_some hp'
    simp [hk']
  · rename_i h
    have hf : m.any (fun p => decide (p.1 = k)) = false := Bool.eq_false_iff.mpr h
    have hnone : List.find? (fun p : String × Nat => decide (p.1 = k)) m = none := by
      rw [List.find?_eq_none]
      intro x hx hpx
      have hall : m.any (fun p => decide (p.1 = k)) = true :=
        List.any_eq_true.mpr ⟨x, hx, hpx⟩
      rw [hf] at hall
      exact Bool.false_ne_true hall
    unfold mapGet
    rw [List.find?_append, hnone]
    simp [List.find?]

theorem mapGet_mapSet_ne (m : List (String × Nat)) (k k' : String) (v : Nat)
    (h : k' ≠ k) :
    mapGet (mapSet m k v) k' = mapGet m k' := by
  unfold mapSet
  split
  · unfold mapGet
    rw [find?_key_comp]
    cases hfind : List.find? (fun p : String × Nat => decide (p.1 = k')) m with
    | none => rfl
    | some p =>
      have hpk : p.1 = k' := by simpa using List.find?_some hfind
      have hpne : ¬ (p.1 = k) := by rw [hpk]; exact h
      simp [hpne]
  · unfold mapGet
    rw [List.find?_append]
    have h1 : List.find? (fun p : String × Nat => decide (p.1 = k')) [(k, v)] = none := by
      rw [List.find?_eq_none]
      intro x hx
      have hx' : x = (k, v) := by simpa using hx
      subst hx'
      simp only [decide_eq_true_eq]
      exact fun hh => h hh.symm
    rw [h1]
    cases List.find? (fun p : String × Nat => decide (p.1 = k')) m <;> rfl

theorem mapGet_build_aux (likes : List LikeRow) (m : List (String × Nat)) (k : String) :
    mapGet (likes.foldl
      (fun m like => mapSet m like.media_id ((mapGet m like.media_id).getD 0 + 1)) m) k =
      match mapGet m k with
      | some n => some (n + (likes.filter (fun e => e.media_id = k)).length)
      | none =>
        if (likes.filter (fun e => e.media_id = k)).length = 0 then none
        else some (likes.filter (fun e => e.media_id = k)).length := by
  induction likes generalizing m with
  | nil => cases hm : mapGet m k <;> simp [hm]
  | cons e likes ih =>
    rw [List.foldl_cons, ih]
    by_cases he : e.media_id = k
    · have h1 : mapGet (mapSet m e.media_id ((mapGet m e.media_id).getD 0 + 1)) k =
          some ((mapGet m k).getD 0 + 1) := by
        rw [he]; exact mapGet_mapSet_self m k _
      rw [h1]
      have hf : ((e :: likes).filter (fun e => e.media_id = k)).length =
          (likes.filter (fun e => e.media_id = k)).length + 1 := by
        simp [List.filter_cons, he]
      rw [hf]
      cases hm : mapGet m k with
      | none => simp [hm]; omega
      | some n => simp [hm]; omega
    · have h1 : mapGet (mapSet m e.media_id ((mapGet m e.media_id).getD 0 + 1)) k =
          mapGet m k := mapGet_mapSet_ne m e.media_id k _ (fun hk => he hk.symm)
      have hf : ((e :: likes).filter (fun e => e.media_id = k)).length =
          (likes.filter (fun e => e.media_id = k)).length := by
        simp [List.filter_cons, he]
      rw [h1, hf]

theorem mapGet_buildLikesCountMap (likes : List LikeRow) (k : String) :
    mapGet (buildLikesCountMap likes) k =
      if (likes.filter (fun e => e.media_id = k)).length = 0 then none
      else some (likes.filter (fun e => e.media_id = k)).length := by
  have h := mapGet_build_aux likes [] k
  have h0 : mapGet ([] : List (String × Nat)) k = none := rfl
  rw [h0] at h
  simpa [buildLikesCountMap] using h

theorem enrich_value (al : List LikeRow) (lc : Option Nat) (id : String) :
    orElseNat (mapGet (buildLikesCountMap al) id) (orElseNat lc 0) =
      if (al.filter (fun e => e.media_id = id)).length = 0 then lc.getD 0
      else (al.filter (fun e => e.media_id = id)).length := by
  rw [mapGet_buildLikesCountMap]
  by_cases h : (al.filter (fun e => e.media_id = id)).length = 0
  · simp only [if_pos h]
    show orElseNat lc 0 = lc.getD 0
    exact orElseNat_zero lc
  · simp only [if_neg h]
    simp [orElseNat, h]

/-- C1: one enrichment pass over N content items produces exactly N
enriched items. The per-item like count is NOT always the edge count: the
source computes likesCountMap.get(item.id) || item.likes_count || 0, so
the edge count wins only when at least one edge references the item;
with zero matching edges the stored counter (or 0) is used. This theorem
proves the amended per-item value together with the length claim. -/
theorem C1_enrichment_like_count (l : List MediaItem) (al : List LikeRow)
    (ul : List LikeRow) (uf : List FollowRow) :
    (enrichItems l al ul uf).length = l.length ∧
    enrichItems l al ul uf = l.map (fun m =>
      { m with
        likes_count := some (if (al.filter (fun e => e.media_id = m.id)).length = 0
          then m.likes_count.getD 0
          else (al.filter (fun e => e.media_id = m.id)).length)
        is_liked := some ((ul.map (fun r => r.media_id)).contains m.id)
        is_following := some ((uf.map (fun r => r.creator_name)).contains m.creator_name) }) := by
  constructor
  · simp [enrichItems]
  · unfold enrichItems
    apply List.map_congr_left
    intro m _
    rw [enrich_value]

/-- C1 counterexample: an item with stored counter 5 and zero like edges
is enriched with likeCount 5, not the computed edge count 0 — the stored
counter, not the computed count, is returned when they disagree at zero
edges. -/
theorem C1_stored_counter_cex :
    (enrichItems [itemData "a" "Jo" (some 5) none none] [] [] []).map
        (fun m => m.likes_count) = [some 5] ∧
    (([] : List LikeRow).filter (fun e => e.media_id = "a")).length = 0 ∧
    some (5 : Nat) ≠ some 0 := by
  refine ⟨by decide, by decide, by decide⟩

/-- C2: the claim says a failed content read preserves the previous item
collection; the code instead clears it (setMediaContent([]) in the catch
block). Amended: when the content read throws, the store ends with the
error banner set and the item collection cleared to the empty list. -/
theorem C2_fetch_failure_clears (st : StoreState) (user : Option String)
    (b : Backend) (e : String) (hg : st.fetchInProgress = false)
    (hb : b.mediaData = .error e) :
    (fetchMediaContent st user b).1.items = [] ∧
    (fetchMediaContent st user b).1.error = some fetchErrMsg ∧
    (fetchMediaContent st user b).1.fetchInProgress = false := by
  simp [fetchMediaContent, hg, fetchRun, fetchEnter, hb]

/-- C2 witness: the amended behaviour at a concrete failing fetch. -/
theorem C2_fetch_failure_clears_witness :
    (fetchMediaContent ⟨[itemData "a" "Jo" (some 2) (some false) (some false)],
        false, none, false⟩ none ⟨.error "boom", none, none, none⟩).1.items = [] ∧
    (fetchMediaContent ⟨[itemData "a" "Jo" (some 2) (some false) (some false)],
        false, none, false⟩ none ⟨.error "boom", none, none, none⟩).1.error =
      some fetchErrMsg ∧
    (fetchMediaContent ⟨[itemData "a" "Jo" (some 2) (some false) (some false)],
        false, none, false⟩ none ⟨.error "boom", none, none, none⟩).1.fetchInProgress =
      false :=
  C2_fetch_failure_clears _ none _ "boom" rfl rfl

/-- C2 counterexample: a store holding one item, whose fetch cycle fails,
does not keep its previous collection — the collection is emptied. -/
theorem C2_preserves_items_cex :
    (fetchMediaContent ⟨[itemData "a" "Jo" (some 2) (some false) (some false)],
        false, none, false⟩ none ⟨.error "boom", none, none, none⟩).1.items ≠
      [itemData "a" "Jo" (some 2) (some false) (some false)] ∧
    (fetchMediaContent ⟨[itemData "a" "Jo" (some 2) (some false) (some false)],
        false, none, false⟩ none ⟨.error "boom", none, none, none⟩).1.items = [] := by
  refine ⟨by decide, by decide⟩

theorem fetchRun_completes (st : StoreState) (u : Option String) (b : Backend) :
    (fetchRun st u b).1.fetchInProgress = false ∧
    (fetchRun st u b).1.loading = false ∧
    (fetchRun st u b).2.contentReads = 1 := by
  obtain ⟨md, al, ul, uf⟩ := b
  cases md with
  | error e => exact ⟨rfl, rfl, rfl⟩
  | ok l =>
    by_cases hl : l.isEmpty <;> simp [fetchRun, hl]

/-- C3: a failed durable write after the optimistic like or follow patch
restores the item collection to the exact pre-mutation snapshot
(previousContent) — unrelated items included, since the whole collection
is restored — and sets the recoverable error banner. -/
theorem C3_rollback_restores_snapshot (st : StoreState) (follows : List String)
    (uid mediaId creatorName : String) (item witem : MediaItem)
    (hL : st.items.find? (fun m => m.id = mediaId) = some item)
    (hF : st.items.find? (fun m => m.creator_name = creatorName) = some witem) :
    (handleLike st (some uid) mediaId false).store.items = st.items ∧
    (handleLike st (some uid) mediaId false).store.error = some likeErrMsg ∧
    (handleFollow st follows (some uid) creatorName false).store.items = st.items ∧
    (handleFollow st follows (some uid) creatorName false).store.error = some followErrMsg ∧
    (handleFollow st follows (some uid) creatorName false).follows = follows := by
  refine ⟨?_, ?_, ?_, ?_, ?_⟩ <;> simp [handleLike, handleFollow, hL, hF]

/-- C3 witness: the rollback at a concrete one-item store. -/
theorem C3_rollback_restores_snapshot_witness :
    (handleLike ⟨[itemData "a" "Jo" (some 2) (some false) (some false)], false, none,
        false⟩ (some "u1") "a" false).store.items =
      [itemData "a" "Jo" (some 2) (some false) (some false)] ∧
    (handleLike ⟨[itemData "a" "Jo" (some 2) (some false) (some false)], false, none,
        false⟩ (some "u1") "a" false).store.error = some likeErrMsg ∧
    (handleFollow ⟨[itemData "a" "Jo" (some 2) (some false) (some false)], false, none,
        false⟩ [] (some "u1") "Jo" false).store.items =
      [itemData "a" "Jo" (some 2) (some false) (some false)] ∧
    (handleFollow ⟨[itemData "a" "Jo" (some 2) (some false) (some false)], false, none,
        false⟩ [] (some "u1") "Jo" false).store.error = some followErrMsg ∧
    (handleFollow ⟨[itemData "a" "Jo" (some 2) (some false) (some false)], false, none,
        false⟩ [] (some "u1") "Jo" false).follows = ([] : List String) :=
  C3_rollback_restores_snapshot _ [] "u1" "a" "Jo"
    (itemData "a" "Jo" (some 2) (some false) (some false))
    (itemData "a" "Jo" (some 2) (some false) (some false)) (by decide) (by decide)

/-- C4: the fetch guard. Once a fetch has entered (marker set), further
fetch calls are no-ops issuing zero reads, so two calls issued while one
is in flight leave exactly the one underlying read cycle of the in-flight
fetch; that fetch clears the marker on every completion path (thrown
failure, empty result and success are all the cases of b1), and a
subsequent fetch is not blocked: it performs its own read cycle. -/
theorem C4_fetch_guard (st : StoreState) (u1 u2 u3 u4 : Option String)
    (b1 b2 b3 b4 : Backend) :
    (fetchEnter st).fetchInProgress = true ∧
    fetchMediaContent (fetchEnter st) u2 b2 = (fetchEnter st, ⟨0, 0, 0⟩) ∧
    fetchMediaContent (fetchEnter st) u3 b3 = (fetchEnter st, ⟨0, 0, 0⟩) ∧
    (fetchRun (fetchEnter st) u1 b1).2.contentReads = 1 ∧
    (fetchRun (fetchEnter st) u1 b1).1.fetchInProgress = false ∧
    (fetchMediaContent (fetchRun (fetchEnter st) u1 b1).1 u4 b4).2.contentReads = 1 := by
  refine ⟨rfl, by simp [fetchMediaContent, fetchEnter], by simp [fetchMediaContent, fetchEnter],
    (fetchRun_completes _ u1 b1).2.2, (fetchRun_completes _ u1 b1).1, ?_⟩
  have h := fetchRun_completes (fetchEnter st) u1 b1
  simp only [fetchMediaContent, h.1, Bool.false_eq_true, if_false]
  exact (fetchRun_completes _ u4 b4).2.2

/-- C7: with a null viewer the enrichment degrades to the public view:
no viewer-scoped edge query is issued and every enriched item carries
likedByViewer and followedByViewer false. -/
theorem C7_null_viewer_public_view (st : StoreState) (b : Backend)
    (hg : st.fetchInProgress = false) :
    (fetchMediaContent st none b).2.viewerReads = 0 ∧
    ∀ m ∈ (fetchMediaContent st none b).1.items,
      m.is_liked = some false ∧ m.is_following = some false := by
  obtain ⟨md, al, ul, uf⟩ := b
  simp only [fetchMediaContent, hg, Bool.false_eq_true, if_false]
  cases md with
  | error e => simp [fetchRun, fetchEnter]
  | ok l =>
    by_cases hl : l.isEmpty
    · simp [fetchRun, fetchEnter, hl]
    · simp only [fetchRun, fetchEnter, hl, Bool.false_eq_true, if_false, Option.isSome_none]
      refine ⟨by trivial, ?_⟩
      intro m hm
      simp only [enrichItems, List.mem_map] at hm
      obtain ⟨m0, _, rfl⟩ := hm
      exact ⟨rfl, rfl⟩

/-- C7 witness: the spec scenario — one content item, no edges, null
viewer. -/
theorem C7_null_viewer_public_view_witness :
    ((fetchMediaContent ⟨[], true, none, false⟩ none
        ⟨.ok [itemData "a" "Jo" none none none], none, none, none⟩).1.items =
      [itemData "a" "Jo" (some 0) (some false) (some false)]) ∧
    (fetchMediaContent ⟨[], true, none, false⟩ none
        ⟨.ok [itemData "a" "Jo" none none none], none, none, none⟩).2.viewerReads = 0 ∧
    ∀ m ∈ (fetchMediaContent ⟨[], true, none, false⟩ none
        ⟨.ok [itemData "a" "Jo" none none none], none, none, none⟩).1.items,
      m.is_liked = some false ∧ m.is_following = some false :=
  ⟨by decide, C7_null_viewer_public_view _ _ rfl⟩

/-- C9: a toggle aimed at a target absent from the collection is a
complete no-op: the store (items, flags, error) is returned unchanged and
zero durable writes are issued; for follow the backend edge set is also
unchanged. -/
theorem C9_missing_target_noop (st : StoreState) (follows : List String)
    (uid mediaId creatorName : String) (w1 w2 : Bool)
    (hL : st.items.find? (fun m => m.id = mediaId) = none)
    (hF : st.items.find? (fun m => m.creator_name = creatorName) = none) :
    handleLike st (some uid) mediaId w1 = ⟨st, 0⟩ ∧
    handleFollow st follows (some uid) creatorName w2 = ⟨st, follows, 0⟩ := by
  constructor
  · simp [handleLike, hL]
  · simp [handleFollow, hF]

/-- C9 witness: toggles aimed at an id and a creator no item carries. -/
theorem C9_missing_target_noop_witness :
    handleLike ⟨[itemData "a" "Jo" (some 1) (some false) (some false)], false, none,
        false⟩ (some "u1") "zzz" true =
      ⟨⟨[itemData "a" "Jo" (some 1) (some false) (some false)], false, none, false⟩, 0⟩ ∧
    handleFollow ⟨[itemData "a" "Jo" (some 1) (some false) (some false)], false, none,
        false⟩ ["Jo"] (some "u1") "Nobody" true =
      ⟨⟨[itemData "a" "Jo" (some 1) (some false) (some false)], false, none, false⟩,
        ["Jo"], 0⟩ :=
  C9_missing_target_noop _ ["Jo"] "u1" "zzz" "Nobody" true true (by decide) (by decide)

/-- C10: when the content read succeeds but the full like-edge read fails
(null data), the cycle does not fail: the error flag ends unset, and the
enrichment runs with an empty like-edge set, so every likeCount falls
back to the stored counter (or 0) while likedByViewer comes only from the
separately read viewer-scoped edges. -/
theorem C10_likes_read_failure_graceful (st : StoreState) (u : Option String)
    (b : Backend) (l : List MediaItem) (hg : st.fetchInProgress = false)
    (hm : b.mediaData = .ok l) (hne : l ≠ []) (hal : b.allLikes = none) :
    (fetchMediaContent st u b).1.error = none ∧
    (fetchMediaContent st u b).2.contentReads = 1 ∧
    (fetchMediaContent st u b).1.items = l.map (fun m =>
      { m with
        likes_count := some (m.likes_count.getD 0)
        is_liked := some (((if u.isSome then b.userLikes.getD [] else []).map
          (fun r => r.media_id)).contains m.id)
        is_following := some (((if u.isSome then b.userFollows.getD [] else []).map
          (fun r => r.creator_name)).contains m.creator_name) }) := by
  have hl : l.isEmpty = false := by
    cases l with
    | nil => exact absurd rfl hne
    | cons a l => rfl
  simp only [fetchMediaContent, hg, Bool.false_eq_true, if_false, fetchRun, fetchEnter,
    hm, hal, hl, Option.getD_none]
  refine ⟨by trivial, by trivial, ?_⟩
  unfold enrichItems
  apply List.map_congr_left
  intro m _
  rw [enrich_value]
  simp

/-- C10 witness: one item with stored counter 7, failing like-edge read,
signed-in viewer with one viewer-scoped like edge. -/
theorem C10_likes_read_failure_graceful_witness :
    (fetchMediaContent ⟨[], true, none, false⟩ (some "u1")
        ⟨.ok [itemData "a" "Jo" (some 7) none none], none, some [⟨"a"⟩],
          some []⟩).1.error = none ∧
    (fetchMediaContent ⟨[], true, none, false⟩ (some "u1")
        ⟨.ok [itemData "a" "Jo" (some 7) none none], none, some [⟨"a"⟩],
          some []⟩).2.contentReads = 1 ∧
    (fetchMediaContent ⟨[], true, none, false⟩ (some "u1")
        ⟨.ok [itemData "a" "Jo" (some 7) none none], none, some [⟨"a"⟩],
          some []⟩).1.items =
      [itemData "a" "Jo" (some 7) none none].map (fun m =>
        { m with
          likes_count := some (m.likes_count.getD 0)
          is_liked := some ((((if (some "u1").isSome then
            (some [(⟨"a"⟩ : LikeRow)]).getD [] else []).map
            (fun r => r.media_id)).contains m.id))
          is_following := some ((((if (some "u1").isSome then
            (some ([] : List FollowRow)).getD [] else []).map
            (fun r => r.creator_name)).contains m.creator_name)) }) :=
  C10_likes_read_failure_graceful _ (some "u1") _ _ rfl rfl (by decide) rfl

/-- The per-item function of the optimistic like patch, named for proof
reuse; applyLikePatch is exactly its map. -/
def likePatchFn (mediaId : String) (wasLiked : Bool) (m : MediaItem) : MediaItem :=
  if m.id = mediaId then
    { m with
      is_liked := some (!wasLiked)
      likes_count := some (if wasLiked then m.likes_count.getD 0 - 1
        else m.likes_count.getD 0 + 1) }
  else m

theorem applyLikePatch_eq (items : List MediaItem) (mediaId : String) (w : Bool) :
    applyLikePatch items mediaId w = items.map (likePatchFn mediaId w) := rfl

theorem likePatchFn_id (mediaId : String) (w : Bool) (m : MediaItem) :
    (likePatchFn mediaId w m).id = m.id := by
  unfold likePatchFn
  by_cases h : m.id = mediaId <;> simp [h]

theorem applyLikePatch_find? (items : List MediaItem) (mediaId : String) (w : Bool) :
    (applyLikePatch items mediaId w).find? (fun m => m.id = mediaId) =
      (items.find? (fun m => m.id = mediaId)).map (likePatchFn mediaId w) := by
  rw [applyLikePatch_eq, List.find?_map]
  have hpf : ((fun m : MediaItem => decide (m.id = mediaId)) ∘ likePatchFn mediaId w) =
      (fun m : MediaItem => decide (m.id = mediaId)) := by
    funext m
    simp [Function.comp, likePatchFn_id]
  rw [hpf]

theorem likePatchFn_roundtrip (mediaId : String) (item : MediaItem) (b : Bool) (c : Nat)
    (hid : item.id = mediaId) (hb : item.is_liked = some b)
    (hc : item.likes_count = some c) (hinv : b = true → 1 ≤ c) :
    likePatchFn mediaId (!b) (likePatchFn mediaId b item) = item := by
  obtain ⟨iid, f2, f3, f4, f5, f6, f7, f8, f9, f10, f11, f12, f13, f14, f15, f16,
    ilc, iliked, ifol⟩ := item
  simp only at hid hb hc
  subst hid hb hc
  cases b with
  | false => simp [likePatchFn]
  | true =>
    have hc1 : c - 1 + 1 = c := Nat.succ_pred_eq_of_pos (hinv rfl)
    simp [likePatchFn, hc1]

theorem handleLike_success_items (st : StoreState) (uid mediaId : String)
    (item : MediaItem)
    (hfind : st.items.find? (fun m => m.id = mediaId) = some item) :
    (handleLike st (some uid) mediaId true).store.items =
      applyLikePatch st.items mediaId (item.is_liked.getD false) := by
  simp [handleLike, hfind]

/-- C5: the optimistic like patch, applied synchronously inside the
toggle before the durable write resolves, inverts likedByViewer and moves
likeCount by +1 on false to true and by −1 floored at 0 (Nat subtraction)
on true to false; the third conjunct ties the patch to handleLike: the
success path keeps exactly the patched collection and the failure path
keeps the pre-patch one. -/
theorem C5_optimistic_like_patch (items : List MediaItem) (mediaId : String)
    (item : MediaItem) (c : Nat)
    (hfind : items.find? (fun m => m.id = mediaId) = some item)
    (hc : item.likes_count = some c) :
    (item.is_liked.getD false = false →
      (applyLikePatch items mediaId false).find? (fun m => m.id = mediaId) =
        some { item with is_liked := some true, likes_count := some (c + 1) }) ∧
    (item.is_liked.getD false = true →
      (applyLikePatch items mediaId true).find? (fun m => m.id = mediaId) =
        some { item with is_liked := some false, likes_count := some (c - 1) }) ∧
    (∀ (st : StoreState) (uid : String) (wOk : Bool), st.items = items →
      (handleLike st (some uid) mediaId wOk).store.items =
        (if wOk then applyLikePatch items mediaId (item.is_liked.getD false)
         else items)) := by
  have hid : item.id = mediaId := by simpa using List.find?_some hfind
  refine ⟨?_, ?_, ?_⟩
  · intro _
    rw [applyLikePatch_find?, hfind]
    simp [likePatchFn, hid, hc]
  · intro _
    rw [applyLikePatch_find?, hfind]
    simp [likePatchFn, hid, hc]
  · intro st uid wOk hst
    subst hst
    by_cases hw : wOk <;> simp [handleLike, hfind, hw]

/-- C5 witness: the spec scenario, likeCount 2 and likedByViewer false
become 3 and true under the patch. -/
theorem C5_optimistic_like_patch_witness :
    (applyLikePatch [itemData "a" "Jo" (some 2) (some false) (some false)] "a"
        false).find? (fun m => m.id = "a") =
      some { itemData "a" "Jo" (some 2) (some false) (some false) with
        is_liked := some true, likes_count := some (2 + 1) } :=
  (C5_optimistic_like_patch [itemData "a" "Jo" (some 2) (some false) (some false)] "a"
    (itemData "a" "Jo" (some 2) (some false) (some false)) 2 (by decide) rfl).1 rfl

/-- C6 counterexample: the roundtrip fails at a reachable state. A fetch
whose full like-edge read fails but whose viewer-scoped read returns an
edge enriches the item to likedByViewer true with likeCount 0 (the stored
counter is absent, so the fallback is 0); toggling like twice there gives
Math.max(0, 0 − 1) = 0 and then 0 + 1 = 1, so the item ends with
likeCount 1, not its original 0. -/
theorem C6_like_zero_cex :
    ((fetchMediaContent ⟨[], true, none, false⟩ (some "u1")
        ⟨.ok [itemData "a" "Jo" none none none], none, some [⟨"a"⟩],
          some []⟩).1.items.find? (fun m => m.id = "a")) =
      some (itemData "a" "Jo" (some 0) (some true) (some false)) ∧
    ((handleLike (handleLike (fetchMediaContent ⟨[], true, none, false⟩ (some "u1")
        ⟨.ok [itemData "a" "Jo" none none none], none, some [⟨"a"⟩],
          some []⟩).1 (some "u1") "a" true).store (some "u1") "a"
        true).store.items.find? (fun m => m.id = "a")) =
      some (itemData "a" "Jo" (some 1) (some true) (some false)) ∧
    itemData "a" "Jo" (some 1) (some true) (some false) ≠
      itemData "a" "Jo" (some 0) (some true) (some false) := by
  refine ⟨by decide, by decide, by decide⟩

/-- C6 amended: toggling like twice in succession on the same item, both
durable writes succeeding and no intervening fetch, returns that item
(the first match of its id) to its original likedByViewer and likeCount
whenever its likeCount is at least 1 if likedByViewer is true; in the
remaining corner state (likedByViewer true with likeCount 0, reachable
when the full like-edge read fails and the count falls back to a zero or
absent stored counter) the first toggle's decrement is floored at 0 and
the roundtrip overshoots to likeCount 1. -/
theorem C6_double_toggle_roundtrip (st : StoreState) (uid mediaId : String)
    (item : MediaItem) (b : Bool) (c : Nat)
    (hfind : st.items.find? (fun m => m.id = mediaId) = some item)
    (hb : item.is_liked = some b) (hc : item.likes_count = some c)
    (hinv : b = true → 1 ≤ c) :
    ((handleLike (handleLike st (some uid) mediaId true).store (some uid) mediaId
      true).store.items.find? (fun m => m.id = mediaId)) = some item := by
  have hid : item.id = mediaId := by simpa using List.find?_some hfind
  have h1 : (handleLike st (some uid) mediaId true).store.items =
      applyLikePatch st.items mediaId b := by
    rw [handleLike_success_items st uid mediaId item hfind, hb]
    rfl
  have h2 : (applyLikePatch st.items mediaId b).find? (fun m => m.id = mediaId) =
      some (likePatchFn mediaId b item) := by
    rw [applyLikePatch_find?, hfind]
    rfl
  have h3 : (likePatchFn mediaId b item).is_liked.getD false = !b := by
    unfold likePatchFn
    simp [hid]
  have h4 : (handleLike (handleLike st (some uid) mediaId true).store (some uid)
      mediaId true).store.items =
      applyLikePatch (applyLikePatch st.items mediaId b) mediaId (!b) := by
    rw [handleLike_success_items _ uid mediaId (likePatchFn mediaId b item)
      (by rw [h1]; exact h2), h3, h1]
  rw [h4, applyLikePatch_find?, h2]
  show some (likePatchFn mediaId (!b) (likePatchFn mediaId b item)) = some item
  rw [likePatchFn_roundtrip mediaId item b c hid hb hc hinv]

/-- C6 witness: the amended roundtrip at a concrete item with likeCount 2
and likedByViewer false. -/
theorem C6_double_toggle_roundtrip_witness :
    ((handleLike (handleLike ⟨[itemData "a" "Jo" (some 2) (some false) (some false)],
        false, none, false⟩ (some "u1") "a" true).store (some "u1") "a"
        true).store.items.find? (fun m => m.id = "a")) =
      some (itemData "a" "Jo" (some 2) (some false) (some false)) :=
  C6_double_toggle_roundtrip _ "u1" "a"
    (itemData "a" "Jo" (some 2) (some false) (some false)) false 2
    (by decide) rfl rfl (by decide)

theorem contains_eq_decide_mem (l : List String) (x : String) :
    l.contains x = decide (x ∈ l) := by
  induction l with
  | nil => rfl
  | cons a l ih =>
    rw [List.contains_cons, ih]
    by_cases h : x = a <;> simp [h]

theorem contains_filter_self (follows : List String) (name : String) :
    (follows.filter (fun n => n ≠ name)).contains name = false := by
  rw [contains_eq_decide_mem]
  simp [List.mem_filter]

theorem contains_filter_other (follows : List String) (name x : String) (h : x ≠ name) :
    (follows.filter (fun n => n ≠ name)).contains x = follows.contains x := by
  rw [contains_eq_decide_mem, contains_eq_decide_mem]
  simp [List.mem_filter, h]

theorem contains_cons_self (follows : List String) (name : String) :
    (name :: follows).contains name = true := by
  rw [contains_eq_decide_mem]
  simp

theorem contains_cons_other (follows : List String) (name x : String) (h : x ≠ name) :
    (name :: follows).contains x = follows.contains x := by
  rw [contains_eq_decide_mem, contains_eq_decide_mem]
  simp [List.mem_cons, h]

/-- The per-item function of the optimistic follow patch; applyFollowPatch
is exactly its map. -/
def followPatchFn (creatorName : String) (wasFollowing : Bool) (m : MediaItem) :
    MediaItem :=
  if m.creator_name = creatorName then { m with is_following := some (!wasFollowing) }
  else m

theorem applyFollowPatch_eq (items : List MediaItem) (creatorName : String) (w : Bool) :
    applyFollowPatch items creatorName w = items.map (followPatchFn creatorName w) := rfl

/-- The follow-flag correspondence: every item reports exactly whether the
viewer follows its creator name, relative to the given followed-name set. -/
def followsOK (items : List MediaItem) (follows : List String) : Prop :=
  ∀ m ∈ items, m.is_following = some (follows.contains m.creator_name)

/-- Agreement: items sharing a creator name report the same follow flag. -/
def followAgree (items : List MediaItem) : Prop :=
  ∀ m1 ∈ items, ∀ m2 ∈ items,
    m1.creator_name = m2.creator_name → m1.is_following = m2.is_following

/-- C8: after an enrichment pass each item's followedByViewer equals
whether the viewer follows its creator name (first conjunct), a complete
handleFollow — optimistic patch plus durable write on success, rollback
on failure — preserves that correspondence relative to the resulting
backend follow set (second conjunct), and the correspondence forces all
items sharing a creator name to agree (third conjunct). -/
theorem C8_follow_flag_consistency :
    (∀ (l : List MediaItem) (al ul : List LikeRow) (uf : List FollowRow),
      followsOK (enrichItems l al ul uf) (uf.map (fun r => r.creator_name))) ∧
    (∀ (st : StoreState) (follows : List String) (uid creatorName : String) (wOk : Bool),
      followsOK st.items follows →
      followsOK (handleFollow st follows (some uid) creatorName wOk).store.items
        (handleFollow st follows (some uid) creatorName wOk).follows) ∧
    (∀ (items : List MediaItem) (follows : List String),
      followsOK items follows → followAgree items) := by
  refine ⟨?_, ?_, ?_⟩
  · intro l al ul uf m hm
    unfold enrichItems at hm
    simp only [List.mem_map] at hm
    obtain ⟨m0, _, rfl⟩ := hm
    rfl
  · intro st follows uid creatorName wOk hok
    cases hfind : st.items.find? (fun m => m.creator_name = creatorName) with
    | none => simpa [handleFollow, hfind] using hok
    | some item =>
      have hname : item.creator_name = creatorName := by
        simpa using List.find?_some hfind
      have hitem : item ∈ st.items := List.mem_of_find?_eq_some hfind
      have hwas : item.is_following.getD false = follows.contains creatorName := by
        rw [← hname]
        rw [hok item hitem]
        rfl
      by_cases hw : wOk
      · simp only [handleFollow, hfind, hw, if_pos]
        rw [hwas]
        intro m hm
        rw [applyFollowPatch_eq] at hm
        obtain ⟨m0, hm0, rfl⟩ := List.mem_map.mp hm
        by_cases hcr : m0.creator_name = creatorName
        · have hfp : followPatchFn creatorName (follows.contains creatorName) m0 =
              { m0 with is_following := some (!(follows.contains creatorName)) } := by
            unfold followPatchFn
            rw [if_pos hcr]
          rw [hfp]
          show some (!(follows.contains creatorName)) =
            some ((if follows.contains creatorName then
              follows.filter (fun n => n ≠ creatorName)
              else creatorName :: follows).contains m0.creator_name)
          rw [hcr]
          cases hcon : follows.contains creatorName with
          | false => rw [if_neg (by simp [hcon]), contains_cons_self]; rfl
          | true => rw [if_pos rfl, contains_filter_self]; rfl
        · have hfp : followPatchFn creatorName (follows.contains creatorName) m0 = m0 := by
            unfold followPatchFn
            rw [if_neg hcr]
          rw [hfp, hok m0 hm0]
          cases hcon : follows.contains creatorName with
          | false =>
            rw [if_neg (by simp), contains_cons_other follows creatorName _ hcr]
          | true =>
            rw [if_pos rfl, contains_filter_other follows creatorName _ hcr]
      · simp only [handleFollow, hfind, hw, if_neg]
        simpa using hok
  · intro items follows hok m1 h1 m2 h2 hcr
    rw [hok m1 h1, hok m2 h2, hcr]

/-- C8 witness: two items by the same creator, enriched with that creator
followed, agree on the flag; a successful unfollow toggle preserves the
correspondence with the shrunken backend set. -/
theorem C8_follow_flag_consistency_witness :
    followAgree (enrichItems [itemData "a" "Jo" none none none,
      itemData "b" "Jo" none none none] [] [] [⟨"Jo"⟩]) ∧
    followsOK (handleFollow ⟨enrichItems [itemData "a" "Jo" none none none,
        itemData "b" "Jo" none none none] [] [] [⟨"Jo"⟩], false, none, false⟩
        (([⟨"Jo"⟩] : List FollowRow).map (fun r => r.creator_name)) (some "u1") "Jo"
        true).store.items
      (handleFollow ⟨enrichItems [itemData "a" "Jo" none none none,
        itemData "b" "Jo" none none none] [] [] [⟨"Jo"⟩], false, none, false⟩
        (([⟨"Jo"⟩] : List FollowRow).map (fun r => r.creator_name)) (some "u1") "Jo"
        true).follows :=
  ⟨C8_follow_flag_consistency.2.2 _ _ (C8_follow_flag_consistency.1
      [itemData "a" "Jo" none none none, itemData "b" "Jo" none none none] [] [] [⟨"Jo"⟩]),
   C8_follow_flag_consistency.2.1 _ _ "u1" "Jo" true (C8_follow_flag_consistency.1
      [itemData "a" "Jo" none none none, itemData "b" "Jo" none none none] [] [] [⟨"Jo"⟩])⟩

end MediaSync
